import Mathlib

/-!
Verification of the SQL Optimizer application (SQL_Omptimizer repository).

This file gives a shallow embedding of the parts of the code that the
specification's testable properties talk about:

* `format_sql` from `src/utils.py` (regex keyword uppercasing followed by
  whitespace / comma / parenthesis cleanup and a final strip);
* the authentication flow from `src/auth.py` (`register_form`, `login_form`)
  over the `users` table of `src/database.py`;
* the session quota logic from `src/components/sidebar.py` and
  `src/views/optimizer.py`;
* the analyze flow from `src/views/optimizer.py` (`analyze_query`) with its
  logging on API failure;
* the query-history CRUD from `src/database.py` (`toggle_favorite`,
  `delete_query_from_history`, `update_query_name`).

All definitions are executable and are proved against concrete inputs where
the properties require witnesses.
-/

namespace SQLOptimizer

/-! ## Characters and Python string helpers -/

/-- A word character in the sense of the regex `\b` boundary and of the
character class `[a-zA-Z0-9_]` used in `format_sql` (`src/utils.py`). -/
def isWordChar (c : Char) : Bool :=
  c.isAlpha || c.isDigit || c == '_'

/-- ASCII lowercasing of a character, as Python's case-insensitive regex
matching does for the ASCII keywords of `format_sql`. -/
def lowerChar (c : Char) : Char := c.toLower

/-- Python `str.strip()` whitespace set (space, tab, newline, carriage
return, vertical tab, form feed). -/
def isPySpace (c : Char) : Bool :=
  c == ' ' || c == '\t' || c == '\n' || c == '\r' || c == '\x0b' || c == '\x0c'

/-- Python `str.strip()` on a character list: drop leading and trailing
whitespace. -/
def pyStrip (s : List Char) : List Char :=
  ((s.dropWhile isPySpace).reverse.dropWhile isPySpace).reverse

/-! ## The regex substitutions of `format_sql` (`src/utils.py`, lines 20-31)

Each Python `re.sub` call is embedded as a structural scan over the character
list implementing exactly the left-to-right, non-overlapping semantics of
`re.sub` for the particular (very simple) pattern it uses.
-/

/-- Does `s` start (case-insensitively) with the lowercase keyword `kw`?
Implements the literal part of the pattern `\b<kw>\b` with `re.IGNORECASE`. -/
def startsWithCI : List Char → List Char → Bool
  | [], _ => true
  | _ :: _, [] => false
  | k :: ks, c :: cs => (lowerChar c == k) && startsWithCI ks cs

/-- Does the pattern `\b<kw>\b` (with `re.IGNORECASE`) match at the head of
`s`, given whether the previous character of the input was a word character?
All keywords begin and end with letters, so the `\b` conditions are: the
previous character (if any) is not a word character and the character after
the match (if any) is not a word character. -/
def matchKwAt (kwLower : List Char) (prevIsWord : Bool) (s : List Char) : Bool :=
  !prevIsWord && startsWithCI kwLower s &&
    (match s.drop kwLower.length with
     | [] => true
     | c :: _ => !isWordChar c)

/-- One `re.sub(r'\b' + kw + r'\b', KW, s, flags=re.IGNORECASE)` pass
(`src/utils.py` lines 20-22).  The scan carries the word-character status of
the previous input character (for the leading `\b`) and a skip counter for
the remaining characters of a match already replaced by the canonical
keyword `kwCanon`. -/
def subKwAux (kwLower kwCanon : List Char) : List Char → Bool → Nat → List Char
  | [], _, _ => []
  | c :: rest, _, skip + 1 => subKwAux kwLower kwCanon rest (isWordChar c) skip
  | c :: rest, prevIsWord, 0 =>
      if matchKwAt kwLower prevIsWord (c :: rest) then
        kwCanon ++ subKwAux kwLower kwCanon rest (isWordChar c) (kwLower.length - 1)
      else
        c :: subKwAux kwLower kwCanon rest (isWordChar c) 0

/-- Replace every word-bounded, case-insensitive occurrence of the keyword
`kw` by its canonical spelling `kw` itself. -/
def sub_keyword (kw : String) (s : List Char) : List Char :=
  subKwAux (kw.data.map lowerChar) kw.data s false 0

/-- The hardcoded keyword list of `format_sql` in `src/utils.py`
(lines 8-16), in source order. -/
def sqlKeywords : List String :=
  ["SELECT", "FROM", "WHERE", "JOIN", "LEFT JOIN", "RIGHT JOIN", "INNER JOIN",
   "OUTER JOIN", "FULL JOIN", "CROSS JOIN", "ON", "AND", "OR", "NOT", "IN",
   "EXISTS", "BETWEEN", "LIKE", "IS", "NULL", "GROUP BY", "HAVING",
   "ORDER BY", "ASC", "DESC", "LIMIT", "OFFSET", "UNION", "UNION ALL",
   "INTERSECT", "EXCEPT", "WITH", "AS", "CASE", "WHEN", "THEN", "ELSE",
   "END", "IF", "DISTINCT", "ALL", "COUNT", "SUM", "AVG", "MIN", "MAX",
   "SUBSTRING", "CONCAT", "COALESCE", "CAST", "CONVERT", "INSERT", "UPDATE",
   "DELETE", "CREATE", "DROP", "ALTER", "TABLE", "INDEX", "VIEW"]

/-- The keyword-uppercasing loop of `format_sql` (`src/utils.py` lines
20-22): one `re.sub` pass per keyword, in list order. -/
def capitalize_keywords (s : List Char) : List Char :=
  sqlKeywords.foldl (fun acc kw => sub_keyword kw acc) s

/-- `re.sub(r'[ \t]+', ' ', s)`: collapse each maximal run of spaces and
tabs to a single space.  The Boolean tracks whether we are inside a run that
has already emitted its single space. -/
def collapse_ws : List Char → Bool → List Char
  | [], _ => []
  | c :: rest, inRun =>
      if c == ' ' || c == '\t' then
        if inRun then collapse_ws rest true
        else ' ' :: collapse_ws rest true
      else c :: collapse_ws rest false

/-- `re.sub(r' +\n', '\n', s)`: delete each maximal run of spaces that
immediately precedes a newline.  `pending` counts buffered spaces not yet
known to precede a newline. -/
def rmSpaceNl : List Char → Nat → List Char
  | [], pending => List.replicate pending ' '
  | c :: rest, pending =>
      if c == ' ' then rmSpaceNl rest (pending + 1)
      else if c == '\n' then '\n' :: rmSpaceNl rest 0
      else List.replicate pending ' ' ++ c :: rmSpaceNl rest 0

/-- `re.sub(r'\n +', '\n', s)`: delete each run of spaces that immediately
follows a newline.  The Boolean records that we are right after a newline
(possibly with deleted spaces in between). -/
def rmNlSpace : List Char → Bool → List Char
  | [], _ => []
  | c :: rest, afterNl =>
      if c == '\n' then '\n' :: rmNlSpace rest true
      else if afterNl && c == ' ' then rmNlSpace rest true
      else c :: rmNlSpace rest false

/-- `re.sub(r' ,', ',', s)`: delete a space directly before a comma
(left-to-right, non-overlapping). -/
def rmSpaceComma : List Char → List Char
  | ' ' :: ',' :: rest => ',' :: rmSpaceComma rest
  | c :: rest => c :: rmSpaceComma rest
  | [] => []

/-- `re.sub(r',([a-zA-Z0-9_])', r', \1', s)`: insert a space after a comma
that is directly followed by a word character. -/
def addSpaceComma : List Char → List Char
  | ',' :: c :: rest =>
      if isWordChar c then ',' :: ' ' :: c :: addSpaceComma rest
      else ',' :: addSpaceComma (c :: rest)
  | c :: rest => c :: addSpaceComma rest
  | [] => []

/-- `re.sub(r'\( ', '(', s)`: delete a space directly after an opening
parenthesis. -/
def rmParenSpace : List Char → List Char
  | '(' :: ' ' :: rest => '(' :: rmParenSpace rest
  | c :: rest => c :: rmParenSpace rest
  | [] => []

/-- `re.sub(r' \)', ')', s)`: delete a space directly before a closing
parenthesis. -/
def rmSpaceParen : List Char → List Char
  | ' ' :: ')' :: rest => ')' :: rmSpaceParen rest
  | c :: rest => c :: rmSpaceParen rest
  | [] => []

/-- `format_sql` from `src/utils.py`: whitespace-only inputs are returned
unchanged; otherwise the keyword-uppercasing passes run, then the spacing
cleanup substitutions in source order, then the final `strip()`. -/
def format_sql (sql_query : String) : String :=
  if (pyStrip sql_query.data).isEmpty then sql_query
  else
    let r := capitalize_keywords sql_query.data
    let r := collapse_ws r false
    let r := rmSpaceNl r 0
    let r := rmNlSpace r false
    let r := rmSpaceComma r
    let r := addSpaceComma r
    let r := rmParenSpace r
    let r := rmSpaceParen r
    String.mk (pyStrip r)

/-! ## bcrypt model

bcrypt is an external library (not part of this repository), used through
`bcrypt.hashpw` / `bcrypt.checkpw` in `src/database.py`.
-/

/-- Modelled from the spec: the bcrypt password hash produced by
`bcrypt.hashpw(password, bcrypt.gensalt())` — an opaque value determined by
the password and a per-call random salt, against which `bcrypt.checkpw`
verifies a provided password.  The external bcrypt library is not part of
the repository, so it is modelled as an ideal (collision-free) hash. -/
structure BcryptHash where
  pw : String
  salt : Nat
  deriving Repr, DecidableEq

/-- Modelled from the spec: `bcrypt.hashpw(password, salt)`. -/
def hashpw (password : String) (salt : Nat) : BcryptHash :=
  ⟨password, salt⟩

/-- Modelled from the spec: `bcrypt.checkpw(provided, stored)`. -/
def checkpw (provided : String) (stored : BcryptHash) : Bool :=
  stored.pw == provided

/-- `verify_password(stored_password, provided_password)` from
`src/database.py` (line 32): delegates to `bcrypt.checkpw`. -/
def verify_password (stored : BcryptHash) (provided : String) : Bool :=
  checkpw provided stored

/-! ## Data model: tables and session state -/

/-- A row of the `users` table (`src/database.py` `add_user`;
schema in the spec: email, name, password hash, is_admin flag). -/
structure UserRow where
  email : String
  name : String
  password : BcryptHash
  is_admin : Bool
  deriving Repr, DecidableEq

/-- A row of the `query_logs` table (`src/database.py` `log_query`). -/
structure LogRow where
  user_email : String
  task_type : String
  query_length : Nat
  tokens_used : Option Nat
  success : Bool
  error_message : Option String
  deriving Repr, DecidableEq

/-- A row of the `query_history` table (`src/database.py`
`save_query_to_history`); `id` is the primary key. -/
structure HistRow where
  id : Nat
  user_email : String
  query_text : String
  task_type : String
  result_text : Option String
  is_favorite : Bool
  query_name : Option String
  deriving Repr, DecidableEq

/-- The Streamlit session state fields used by auth, sidebar and optimizer
(`src/main.py` session-state initialisation): `logged_in`, `user_email`,
`is_admin`, the quota counter `query_count` and its `query_reset_time`.
Time is modelled as a natural number of seconds. -/
structure Session where
  logged_in : Bool
  user_email : Option String
  is_admin : Bool
  query_count : Nat
  query_reset_time : Nat
  deriving Repr, DecidableEq

/-! ## Authentication (`src/database.py` user functions, `src/auth.py`) -/

/-- `add_user(email, name, password, is_admin)` (`src/database.py` line 7):
hashes the password and inserts a row into `users`. -/
def add_user (users : List UserRow) (email name password : String)
    (salt : Nat) (is_admin : Bool) : List UserRow :=
  users ++ [⟨email, name, hashpw password salt, is_admin⟩]

/-- `get_user(email)` (`src/database.py` line 22): first `users` row whose
email matches, if any. -/
def get_user (users : List UserRow) (email : String) : Option UserRow :=
  users.find? (fun u => u.email == email)

/-- Outcome of a login attempt (`src/auth.py` `login_form`): user not
found, invalid password, or success. -/
inductive LoginResult where
  | success
  | userNotFound
  | invalidPassword
  deriving Repr, DecidableEq

/-- `login_form` (`src/auth.py` lines 50-70): looks the user up, verifies
the bcrypt hash, and on success sets `logged_in`, `user_email` and
`is_admin := stored_flag OR email ∈ ADMIN_EMAILS`; on failure the session
is untouched. `admins` models the `ADMIN_EMAILS` allowlist from
`src/config.py`. -/
def login_form (admins : List String) (users : List UserRow) (sess : Session)
    (email password : String) : Session × LoginResult :=
  match get_user users email with
  | none => (sess, .userNotFound)
  | some user =>
      if verify_password user.password password then
        ({ sess with
            logged_in := true
            user_email := some email
            is_admin := user.is_admin || admins.contains email }, .success)
      else (sess, .invalidPassword)

/-- `register_form` (`src/auth.py` lines 72-86): refuses an existing email;
otherwise stores the user with `is_admin := email ∈ ADMIN_EMAILS`.
Returns the new table and whether the account was created. -/
def register_form (admins : List String) (users : List UserRow)
    (email name password : String) (salt : Nat) : List UserRow × Bool :=
  match get_user users email with
  | some _ => (users, false)
  | none => (add_user users email name password salt (admins.contains email), true)

/-! ## Quota (`src/components/sidebar.py`, `src/views/optimizer.py`) -/

/-- Seconds in the 24-hour quota window (`timedelta(hours=24)`). -/
def quotaWindow : Nat := 86400

/-- The usage-tracker block of `render_sidebar`
(`src/components/sidebar.py` lines 58-61): on each page load, for non-admin
sessions only, if `now >= query_reset_time` the counter is reset to 0 and
the reset time becomes `now + 24h`. -/
def render_sidebar (now : Nat) (sess : Session) : Session :=
  if !sess.is_admin && decide (sess.query_reset_time ≤ now) then
    { sess with query_count := 0, query_reset_time := now + quotaWindow }
  else sess

/-- The `disabled` argument of the Analyze button
(`src/views/optimizer.py` line 41): `not is_admin and query_count >= 5`. -/
def analyze_disabled (sess : Session) : Bool :=
  !sess.is_admin && decide (5 ≤ sess.query_count)

/-! ## Query logging, history and the analyze flow -/

/-- The two persisted tables touched by an analysis
(`query_logs` and `query_history`), plus the auto-increment id counter for
`query_history`. -/
structure Db where
  query_logs : List LogRow
  query_history : List HistRow
  next_history_id : Nat
  deriving Repr, DecidableEq

/-- `log_query(...)` (`src/database.py` line 36): append one row to
`query_logs`. -/
def log_query (db : Db) (user_email task_type : String) (query_length : Nat)
    (tokens_used : Option Nat) (success : Bool) (error_message : Option String) : Db :=
  { db with query_logs :=
      db.query_logs ++ [⟨user_email, task_type, query_length, tokens_used, success, error_message⟩] }

/-- `save_query_to_history(...)` (`src/database.py` line 50): insert a row
into `query_history` (fresh id, `is_favorite` defaulting to false) and
return the new row's id. -/
def save_query_to_history (db : Db) (user_email query_text task_type : String)
    (result_text : Option String) (query_name : Option String) : Db × Nat :=
  ({ db with
      query_history := db.query_history ++
        [⟨db.next_history_id, user_email, query_text, task_type, result_text, false, query_name⟩]
      next_history_id := db.next_history_id + 1 },
   db.next_history_id)

/-- Outcome of `analyze_query` (`src/views/optimizer.py`). -/
inductive AnalyzeOutcome where
  | emptyQuery
  | quotaReached
  | apiError (msg : String)
  | done (reply : String) (historyId : Nat)
  deriving Repr, DecidableEq

/-- `analyze_query(sql_query, task)` (`src/views/optimizer.py` lines
74-125): reject blank input; reject non-admin sessions at or over the
5-query quota; otherwise increment the counter for non-admin sessions and
call the chat-completion API (modelled by the `api` argument: `.ok reply`
or `.error e` for a raised exception).  On success a success row is logged
and the query is saved to history; on an exception exactly one failure row
is logged (with `query_length = len(sql_query)` and the stringified
exception) and nothing is saved to history. -/
def analyze_query (sess : Session) (db : Db) (sql_query task : String)
    (tokenEstimate : Nat) (api : Except String String) :
    Session × Db × AnalyzeOutcome :=
  if (pyStrip sql_query.data).isEmpty then (sess, db, .emptyQuery)
  else if !sess.is_admin && decide (5 ≤ sess.query_count) then (sess, db, .quotaReached)
  else
    let sess := if !sess.is_admin then { sess with query_count := sess.query_count + 1 } else sess
    let email := sess.user_email.getD ""
    match api with
    | .error e =>
        (sess, log_query db email task sql_query.length none false (some e), .apiError e)
    | .ok reply =>
        let db := log_query db email task sql_query.length (some tokenEstimate) true none
        let (db, hid) := save_query_to_history db email sql_query task (some reply) none
        (sess, db, .done reply hid)

/-! ## History CRUD (`src/database.py` lines 83-109) -/

/-- `toggle_favorite(query_id)` (`src/database.py` line 83): read the
current `is_favorite` of the row with this id (no owner filter), then set
`is_favorite` to its negation on every row matching the id.  Returns the
new table and the new status (or `none` when no row matches). -/
def toggle_favorite (hist : List HistRow) (query_id : Nat) :
    List HistRow × Option Bool :=
  match hist.find? (fun r => r.id == query_id) with
  | some row =>
      let new_status := !row.is_favorite
      (hist.map (fun r => if r.id == query_id then { r with is_favorite := new_status } else r),
       some new_status)
  | none => (hist, none)

/-- `delete_query_from_history(query_id, user_email)` (`src/database.py`
line 95): delete the rows matching both the id and the owner email. -/
def delete_query_from_history (hist : List HistRow) (query_id : Nat)
    (user_email : String) : List HistRow :=
  hist.filter (fun r => !(r.id == query_id && r.user_email == user_email))

/-- `update_query_name(query_id, user_email, new_name)` (`src/database.py`
line 103): set `query_name` on the rows matching both the id and the owner
email. -/
def update_query_name (hist : List HistRow) (query_id : Nat)
    (user_email : String) (new_name : String) : List HistRow :=
  hist.map (fun r =>
    if r.id == query_id && r.user_email == user_email then
      { r with query_name := some new_name }
    else r)

/-! ## Helper lemmas -/

/-- `find?` returns the designated element when it is a member, satisfies
the predicate, and is the only member satisfying it. -/
theorem find?_eq_of_unique {α : Type} {p : α → Bool} {l : List α} {a : α}
    (ha : a ∈ l) (hpa : p a = true) (huniq : ∀ b ∈ l, p b = true → b = a) :
    l.find? p = some a := by
  induction l with
  | nil => cases ha
  | cons b t ih =>
      by_cases hb : p b = true
      · have hba : b = a := huniq b (List.mem_cons_self b t) hb
        subst hba
        simp [List.find?, hb]
      · have hbf : p b = false := by
          cases hpb : p b with
          | true => exact absurd hpb hb
          | false => rfl
        have hat : a ∈ t := by
          rcases List.mem_cons.mp ha with h | h
          · subst h; exact absurd hpa hb
          · exact h
        simp only [List.find?, hbf]
        exact ih hat fun b hb hpb => huniq b (List.mem_cons_of_mem _ hb) hpb

/-- A delete request against a history table whose unique row for this id
belongs to a different owner leaves the table unchanged. -/
theorem delete_other_owner_eq {hist : List HistRow} {row : HistRow}
    {qid : Nat} {caller : String}
    (hmem : row ∈ hist) (hid : row.id = qid)
    (huniq : ∀ r ∈ hist, r.id = qid → r = row)
    (howner : row.user_email ≠ caller) :
    delete_query_from_history hist qid caller = hist := by
  unfold delete_query_from_history
  apply List.filter_eq_self.mpr
  intro r hr
  by_cases h : r.id = qid
  · have : r = row := huniq r hr h
    subst this
    simp [howner]
  · simp [h]

/-- A rename request against a history table whose unique row for this id
belongs to a different owner leaves the table unchanged. -/
theorem update_name_other_owner_eq {hist : List HistRow} {row : HistRow}
    {qid : Nat} {caller newName : String}
    (hmem : row ∈ hist) (hid : row.id = qid)
    (huniq : ∀ r ∈ hist, r.id = qid → r = row)
    (howner : row.user_email ≠ caller) :
    update_query_name hist qid caller newName = hist := by
  unfold update_query_name
  have : hist.map (fun r =>
      if r.id == qid && r.user_email == caller then
        { r with query_name := some newName } else r) = hist.map id := by
    apply List.map_congr_left
    intro r hr
    by_cases h : r.id = qid
    · have : r = row := huniq r hr h
      subst this
      simp [howner]
    · simp [h]
  rw [this, List.map_id]

/-- The first `toggle_favorite` on a table with a unique row for the id. -/
theorem toggle_favorite_eq {hist : List HistRow} {row : HistRow} {qid : Nat}
    (hmem : row ∈ hist) (hid : row.id = qid)
    (huniq : ∀ r ∈ hist, r.id = qid → r = row) :
    toggle_favorite hist qid =
      (hist.map (fun r => if r.id == qid then { r with is_favorite := !row.is_favorite } else r),
       some (!row.is_favorite)) := by
  unfold toggle_favorite
  rw [find?_eq_of_unique hmem (by simp [hid])
    (fun b hb hpb => huniq b hb (by simpa using hpb))]

/-! ## Claim theorems -/

/-- C1 counterexample: `format_sql` is not idempotent.  On the input
`"group\tby"` the first pass cannot match the two-word keyword `GROUP BY`
(the tab defeats the literal-space pattern) but normalizes the tab to a
space, so a second pass uppercases the keyword: `format_sql "group\tby" =
"group by"` while `format_sql "group by" = "GROUP BY"`. -/
theorem C1_counterexample :
    format_sql (format_sql "group\tby") ≠ format_sql "group\tby" := by decide

/-- C1 (amended): `format_sql` is idempotent on every whitespace-only input
(such inputs are returned unchanged), but not on arbitrary input: on
`"group\tby"` the whitespace normalization of the first pass exposes the
multi-word keyword `GROUP BY` and a second application changes the result. -/
theorem C1_format_sql_idempotent_amended :
    (∀ s : String, pyStrip s.data = [] → format_sql (format_sql s) = format_sql s) ∧
    format_sql (format_sql "group\tby") ≠ format_sql "group\tby" := by
  constructor
  · intro s h
    have hs : format_sql s = s := by simp [format_sql, h]
    rw [hs]
    exact hs
  · decide

/-- C1 witness: the amended idempotence applied to the concrete
whitespace-only input `" \t "`. -/
theorem C1_format_sql_idempotent_witness :
    format_sql (format_sql " \t ") = format_sql " \t " :=
  C1_format_sql_idempotent_amended.1 " \t " (by decide)

/-- C2 counterexample: `format_sql` does not leave the contents of quoted
string literals untouched.  For the input `where "and"` the claim predicts
`WHERE "and"` (keyword uppercased, literal preserved), but the regex passes
have no quote awareness and also uppercase the `and` inside the quotes. -/
theorem C2_counterexample :
    format_sql "where \"and\"" = "WHERE \"AND\"" ∧
    format_sql "where \"and\"" ≠ "WHERE \"and\"" := by
  constructor
  · decide
  · decide

/-- C2 (amended): keywords are uppercased on word boundaries — the spec's
example `select * from Orders where id=1` maps to
`SELECT * FROM Orders WHERE id=1` with identifier casing untouched — but
keyword-like substrings inside quoted string literals are rewritten too,
since the substitutions have no quote awareness: `where "and"` becomes
`WHERE "AND"`. -/
theorem C2_format_sql_tokens_amended :
    format_sql "select * from Orders where id=1" = "SELECT * FROM Orders WHERE id=1" ∧
    format_sql "where \"and\"" = "WHERE \"AND\"" := by
  constructor
  · decide
  · decide

/-- C3: for an email not already registered, `register_form` followed by
`login_form` with the same password succeeds (the bcrypt check of the
stored hash passes), and the resulting session's `is_admin` equals
(email ∈ allowlist) OR the stored `is_admin` flag of the user row. -/
theorem C3_register_then_login (admins : List String) (users : List UserRow)
    (sess : Session) (email name password : String) (salt : Nat)
    (hnew : get_user users email = none) :
    ∃ u : UserRow,
      get_user (register_form admins users email name password salt).1 email = some u ∧
      (login_form admins (register_form admins users email name password salt).1
        sess email password).2 = .success ∧
      (login_form admins (register_form admins users email name password salt).1
        sess email password).1.is_admin = (admins.contains email || u.is_admin) ∧
      (login_form admins (register_form admins users email name password salt).1
        sess email password).1.logged_in = true := by
  refine ⟨⟨email, name, hashpw password salt, admins.contains email⟩, ?_, ?_, ?_, ?_⟩ <;>
  · simp only [register_form, hnew]
    simp [login_form, get_user, add_user, List.find?_append,
      show users.find? (fun u => u.email == email) = none from hnew,
      verify_password, checkpw, hashpw, Bool.or_comm, Bool.or_self]

/-- C3 witness: registering `a@b` (not on the allowlist `["boss@x"]`) in an
empty table and logging in with the same password. -/
theorem C3_register_then_login_witness :
    ∃ u : UserRow,
      get_user (register_form ["boss@x"] [] "a@b" "Al" "pw1" 7).1 "a@b" = some u ∧
      (login_form ["boss@x"] (register_form ["boss@x"] [] "a@b" "Al" "pw1" 7).1
        ⟨false, none, false, 0, 0⟩ "a@b" "pw1").2 = .success ∧
      (login_form ["boss@x"] (register_form ["boss@x"] [] "a@b" "Al" "pw1" 7).1
        ⟨false, none, false, 0, 0⟩ "a@b" "pw1").1.is_admin =
        ((["boss@x"] : List String).contains "a@b" || u.is_admin) ∧
      (login_form ["boss@x"] (register_form ["boss@x"] [] "a@b" "Al" "pw1" 7).1
        ⟨false, none, false, 0, 0⟩ "a@b" "pw1").1.logged_in = true :=
  C3_register_then_login ["boss@x"] [] ⟨false, none, false, 0, 0⟩ "a@b" "Al" "pw1" 7 rfl

/-- C4: for non-admin sessions the Analyze control is disabled exactly when
the counter has reached 5; a page load (`render_sidebar`) at or past the
reset timestamp sets the counter back to 0 and the reset timestamp to 24
hours after the load, re-enabling the control; admin sessions are never
disabled by the counter. -/
theorem C4_quota_reset (sess : Session) (now : Nat) :
    (sess.is_admin = false → 5 ≤ sess.query_count → analyze_disabled sess = true) ∧
    (sess.is_admin = false → sess.query_reset_time ≤ now →
       (render_sidebar now sess).query_count = 0 ∧
       (render_sidebar now sess).query_reset_time = now + quotaWindow ∧
       analyze_disabled (render_sidebar now sess) = false) ∧
    (sess.is_admin = true → analyze_disabled sess = false) := by
  refine ⟨fun ha hc => ?_, fun ha ht => ?_, fun ha => ?_⟩
  · simp [analyze_disabled, ha, hc]
  · simp [render_sidebar, analyze_disabled, ha, ht]
  · simp [analyze_disabled, ha]

/-- C4 witness: a non-admin session with 5 used queries and an elapsed
reset time, observed at time 20. -/
theorem C4_quota_reset_witness :
    analyze_disabled ⟨true, some "a@b", false, 5, 10⟩ = true ∧
    (render_sidebar 20 ⟨true, some "a@b", false, 5, 10⟩).query_count = 0 ∧
    (render_sidebar 20 ⟨true, some "a@b", false, 5, 10⟩).query_reset_time = 20 + quotaWindow ∧
    analyze_disabled (render_sidebar 20 ⟨true, some "a@b", false, 5, 10⟩) = false := by
  have h := C4_quota_reset ⟨true, some "a@b", false, 5, 10⟩ 20
  exact ⟨h.1 rfl (by decide), h.2.1 rfl (by decide)⟩

/-- C5: when the chat-completion API raises, the analysis attempt appends
exactly one `query_logs` row — with `success = false`, `query_length` the
length of the submitted SQL, and the stringified exception as
`error_message` — and `query_history` is unchanged. -/
theorem C5_api_error_logging (sess : Session) (db : Db)
    (sql task e : String) (tok : Nat)
    (hsql : pyStrip sql.data ≠ [])
    (hquota : sess.is_admin = true ∨ sess.query_count < 5) :
    (analyze_query sess db sql task tok (.error e)).2.1.query_logs =
      db.query_logs ++
        [⟨sess.user_email.getD "", task, sql.length, none, false, some e⟩] ∧
    (analyze_query sess db sql task tok (.error e)).2.1.query_history =
      db.query_history := by
  have hne : (pyStrip sql.data).isEmpty = false := by
    simpa [List.isEmpty_iff] using hsql
  rcases hquota with ha | hc
  · constructor <;> simp [analyze_query, hne, ha, log_query]
  · have hlt : ¬ 5 ≤ sess.query_count := Nat.not_le.mpr hc
    cases hadmin : sess.is_admin <;>
      constructor <;>
        simp [analyze_query, hne, hadmin, hlt, log_query]

/-- C5 witness: a failing API call for a logged-in non-admin session with
an empty quota counter. -/
theorem C5_api_error_logging_witness :
    (analyze_query ⟨true, some "a@b", false, 0, 50⟩ ⟨[], [], 0⟩
        "select 1" "Explain" 9 (.error "boom")).2.1.query_logs =
      [] ++ [⟨"a@b", "Explain", ("select 1" : String).length, none, false, some "boom"⟩] ∧
    (analyze_query ⟨true, some "a@b", false, 0, 50⟩ ⟨[], [], 0⟩
        "select 1" "Explain" 9 (.error "boom")).2.1.query_history = [] :=
  C5_api_error_logging ⟨true, some "a@b", false, 0, 50⟩ ⟨[], [], 0⟩
    "select 1" "Explain" "boom" 9 (by decide) (Or.inr (by decide))

/-- C8: a login attempt for a registered email with a password failing the
bcrypt check reports `invalidPassword` and returns the session exactly as
it was (all fields, including `logged_in`, `user_email`, `is_admin` and the
query counter, unchanged). -/
theorem C8_wrong_password_no_mutation (admins : List String)
    (users : List UserRow) (sess : Session) (email password : String)
    (u : UserRow)
    (hfound : get_user users email = some u)
    (hbad : verify_password u.password password = false) :
    login_form admins users sess email password = (sess, .invalidPassword) := by
  simp [login_form, hfound, hbad]

/-- C8 witness: a stored user `a@b` (password `"right"`, salt 3) and a login
attempt with `"wrong"`. -/
theorem C8_wrong_password_no_mutation_witness :
    login_form ["boss@x"] [⟨"a@b", "Al", hashpw "right" 3, false⟩]
      ⟨false, none, false, 2, 40⟩ "a@b" "wrong" =
      (⟨false, none, false, 2, 40⟩, .invalidPassword) :=
  C8_wrong_password_no_mutation ["boss@x"] [⟨"a@b", "Al", hashpw "right" 3, false⟩]
    ⟨false, none, false, 2, 40⟩ "a@b" "wrong" ⟨"a@b", "Al", hashpw "right" 3, false⟩
    (by decide) (by decide)

/-- C9: a non-admin analysis attempt that passes the guards (non-empty SQL,
counter below 5) increments the session quota counter by exactly one
whatever the API call does — in particular a failed call still consumes one
unit of quota. -/
theorem C9_failed_attempt_consumes_quota (sess : Session) (db : Db)
    (sql task : String) (tok : Nat) (api : Except String String)
    (hadmin : sess.is_admin = false)
    (hcount : sess.query_count < 5)
    (hsql : pyStrip sql.data ≠ []) :
    (analyze_query sess db sql task tok api).1.query_count = sess.query_count + 1 := by
  have hne : (pyStrip sql.data).isEmpty = false := by
    simpa [List.isEmpty_iff] using hsql
  have hlt : ¬ 5 ≤ sess.query_count := Nat.not_le.mpr hcount
  cases api with
  | error e => simp [analyze_query, hne, hadmin, hlt]
  | ok reply => simp [analyze_query, hne, hadmin, hlt, save_query_to_history, log_query]

/-- C9 witness: a failing API call increments the counter from 2 to 3. -/
theorem C9_failed_attempt_consumes_quota_witness :
    (analyze_query ⟨true, some "a@b", false, 2, 50⟩ ⟨[], [], 0⟩
        "select 1" "Explain" 9 (.error "boom")).1.query_count = 2 + 1 :=
  C9_failed_attempt_consumes_quota ⟨true, some "a@b", false, 2, 50⟩ ⟨[], [], 0⟩
    "select 1" "Explain" 9 (.error "boom") rfl (by decide) (by decide)

/-- C6: `toggle_favorite` is an involution on the persisted `is_favorite`
field: for a history table whose row for this primary-key id is unique,
applying `toggle_favorite` twice returns the whole table — in particular
the row's `is_favorite` value — to its original state. -/
theorem C6_toggle_favorite_involution (hist : List HistRow) (row : HistRow)
    (qid : Nat)
    (hmem : row ∈ hist) (hid : row.id = qid)
    (huniq : ∀ r ∈ hist, r.id = qid → r = row) :
    (toggle_favorite (toggle_favorite hist qid).1 qid).1 = hist := by
  rw [toggle_favorite_eq hmem hid huniq]
  set f1 : HistRow → HistRow :=
    fun r => if r.id == qid then { r with is_favorite := !row.is_favorite } else r with hf1
  have hrow1 : f1 row = { row with is_favorite := !row.is_favorite } := by
    simp [hf1, hid]
  have hmem1 : { row with is_favorite := !row.is_favorite } ∈ hist.map f1 := by
    rw [← hrow1]; exact List.mem_map_of_mem f1 hmem
  have hid1 : ∀ r : HistRow, (f1 r).id = r.id := by
    intro r
    by_cases h : r.id = qid <;> simp [hf1, h]
  have huniq1 : ∀ r ∈ hist.map f1, r.id = qid →
      r = { row with is_favorite := !row.is_favorite } := by
    intro r hr hrid
    rcases List.mem_map.mp hr with ⟨s, hs, rfl⟩
    have : s.id = qid := by rw [← hid1 s]; exact hrid
    have hsrow : s = row := huniq s hs this
    rw [hsrow, hrow1]
  rw [toggle_favorite_eq hmem1 (by simp [hid]) huniq1]
  simp only [List.map_map]
  have : hist.map ((fun r : HistRow =>
        if r.id == qid then { r with is_favorite := !(!row.is_favorite) } else r) ∘ f1) =
      hist.map id := by
    apply List.map_congr_left
    intro r hr
    by_cases h : r.id = qid
    · have hrrow : r = row := huniq r hr h
      subst hrrow
      simp only [Function.comp_apply, hf1, id_eq]
      rw [if_pos (show (r.id == qid) = true by simp [h])]
      rw [if_pos (show (({ r with is_favorite := !r.is_favorite } : HistRow).id == qid) = true
            by simp [h])]
      rw [Bool.not_not]
    · simp [hf1, h]
  rw [this, List.map_id]

/-- C6 witness: toggling the single row of a one-row table (id 1,
`is_favorite = false`) twice restores the table. -/
theorem C6_toggle_favorite_involution_witness :
    (toggle_favorite
      (toggle_favorite [⟨1, "alice", "select 1", "Explain", none, false, none⟩] 1).1 1).1 =
      [⟨1, "alice", "select 1", "Explain", none, false, none⟩] :=
  C6_toggle_favorite_involution
    [⟨1, "alice", "select 1", "Explain", none, false, none⟩]
    ⟨1, "alice", "select 1", "Explain", none, false, none⟩ 1
    (by decide) rfl (by decide)

/-- C7: `delete_query_from_history` is owner-scoped: when the unique
history row for the requested id belongs to a different user than the
caller, the delete matches zero rows and the table is unchanged. -/
theorem C7_delete_owner_scoped (hist : List HistRow) (row : HistRow)
    (qid : Nat) (caller : String)
    (hmem : row ∈ hist) (hid : row.id = qid)
    (huniq : ∀ r ∈ hist, r.id = qid → r = row)
    (howner : row.user_email ≠ caller) :
    delete_query_from_history hist qid caller = hist :=
  delete_other_owner_eq hmem hid huniq howner

/-- C7 witness: `bob` requesting deletion of `alice`'s row leaves the
table unchanged. -/
theorem C7_delete_owner_scoped_witness :
    delete_query_from_history
      [⟨1, "alice", "select 1", "Explain", none, false, none⟩] 1 "bob" =
      [⟨1, "alice", "select 1", "Explain", none, false, none⟩] :=
  C7_delete_owner_scoped
    [⟨1, "alice", "select 1", "Explain", none, false, none⟩]
    ⟨1, "alice", "select 1", "Explain", none, false, none⟩ 1 "bob"
    (by decide) rfl (by decide) (by decide)

/-- C10: `toggle_favorite` takes only a query id and applies no owner
filter — for any caller, even one who does not own the unique row for the
id, the toggle flips that row's `is_favorite`; by contrast
`delete_query_from_history` and `update_query_name`, which both also
filter on `user_email`, leave the table unchanged for that caller. -/
theorem C10_toggle_ignores_owner (hist : List HistRow) (row : HistRow)
    (qid : Nat) (caller newName : String)
    (hmem : row ∈ hist) (hid : row.id = qid)
    (huniq : ∀ r ∈ hist, r.id = qid → r = row)
    (howner : row.user_email ≠ caller) :
    (toggle_favorite hist qid).2 = some (!row.is_favorite) ∧
    { row with is_favorite := !row.is_favorite } ∈ (toggle_favorite hist qid).1 ∧
    delete_query_from_history hist qid caller = hist ∧
    update_query_name hist qid caller newName = hist := by
  refine ⟨?_, ?_, delete_other_owner_eq hmem hid huniq howner,
    update_name_other_owner_eq hmem hid huniq howner⟩
  · rw [toggle_favorite_eq hmem hid huniq]
  · rw [toggle_favorite_eq hmem hid huniq]
    have : { row with is_favorite := !row.is_favorite } =
        (fun r : HistRow =>
          if r.id == qid then { r with is_favorite := !row.is_favorite } else r) row := by
      simp [hid]
    rw [this]
    exact List.mem_map_of_mem _ hmem

/-- C10 witness: `bob` can flip `alice`'s favorite flag via
`toggle_favorite`, while his delete and rename requests are no-ops. -/
theorem C10_toggle_ignores_owner_witness :
    (toggle_favorite [⟨1, "alice", "select 1", "Explain", none, false, none⟩] 1).2 =
      some (!false) ∧
    (⟨1, "alice", "select 1", "Explain", none, true, none⟩ : HistRow) ∈
      (toggle_favorite [⟨1, "alice", "select 1", "Explain", none, false, none⟩] 1).1 ∧
    delete_query_from_history
      [⟨1, "alice", "select 1", "Explain", none, false, none⟩] 1 "bob" =
      [⟨1, "alice", "select 1", "Explain", none, false, none⟩] ∧
    update_query_name
      [⟨1, "alice", "select 1", "Explain", none, false, none⟩] 1 "bob" "mine" =
      [⟨1, "alice", "select 1", "Explain", none, false, none⟩] :=
  C10_toggle_ignores_owner
    [⟨1, "alice", "select 1", "Explain", none, false, none⟩]
    ⟨1, "alice", "select 1", "Explain", none, false, none⟩ 1 "bob" "mine"
    (by decide) rfl (by decide) (by decide)

end SQLOptimizer
